/-
Verification of the command-scheduling core (`behavioral/command.py`), the
pipeline memento (`behavioral/memento.py`) and the observer registry
(`behavioral/observer.py`) of the design-patterns corpus.

Modelling conventions:
- Python values stored in dictionaries are modelled by the inductive `Value`
  (strings, integers, booleans, nested dictionaries).
- A Python `dict` is an association list `List (String × Value)`; `dictGet`
  is `dict.get`, returning the first binding for a key (Python dicts have
  unique keys, so first-match lookup agrees with Python lookup on every
  dictionary the code builds).
- Python exceptions are modelled with `Except`: `KeyError` on a missing
  required field is `CommandError.malformed` (the spec's
  MalformedCommandError), `ValueError` from the factory is
  `CommandError.unknownKind` (the spec's UnknownKindError), and the
  exception raised by `simulate_failure` inside `execute` (the spec's
  ExecutionError) is modelled by the boolean `fail` parameter of
  `CommandScheduler.execute_next`, which stands for the random draw of
  `simulate_failure` during that call.
- `CreateCustomerCommand`/`ProvisionResourcesCommand` store whatever the
  serialized dictionary held, exactly as the Python constructors do (no type
  check on the field values), so their fields have type `Value`.
- `execute`/`undo` only print; the scheduler model records which commands
  were constructed, executed and undone during one `execute_next` call so
  that "undo was invoked exactly once" is a statement about the model.
-/

import Mathlib

set_option autoImplicit false

/-- A Python value as stored in the dictionaries of this corpus. -/
inductive Value where
  | str (s : String)
  | int (n : Int)
  | bool (b : Bool)
  | dict (entries : List (String × Value))

/-- A serialized command: a Python dictionary with string keys. -/
abbrev SerializedDict := List (String × Value)

/-- Python `dict.get(k)`: the first binding of key `k`, if any. -/
def dictGet (d : SerializedDict) (k : String) : Option Value :=
  match d with
  | [] => none
  | (k', v) :: rest => if k' = k then some v else dictGet rest k

/-- `CommandTypes.CREATE_CUSTOMER` is a `str` enum member equal to its value. -/
def CommandTypes.CREATE_CUSTOMER : String := "create_customer"

/-- `CommandTypes.PROVISION_RESOURCES` is a `str` enum member equal to its value. -/
def CommandTypes.PROVISION_RESOURCES : String := "provision_resources"

/-- Errors raised during command reconstruction: `unknownKind` models the
`ValueError("Unknown command type: ...")` of `CommandFactory.create_command`
(carrying `data.get("type")`), `malformed` models the `KeyError` raised by
`deserialize` when a required field is absent (carrying the missing key). -/
inductive CommandError where
  | unknownKind (command_type : Option Value)
  | malformed (key : String)

/-- State of a `CreateCustomerCommand`: the Python constructor stores the
given `customer_id` and `customer_data` unchecked. -/
structure CreateCustomerCommand where
  customer_id : Value
  customer_data : Value

/-- State of a `ProvisionResourcesCommand`. -/
structure ProvisionResourcesCommand where
  resource_id : Value
  resource_config : Value

/-- The closed family of `Command` subclasses present in the source. -/
inductive Command where
  | createCustomer (c : CreateCustomerCommand)
  | provisionResources (c : ProvisionResourcesCommand)

/-- `CreateCustomerCommand.serialize`. -/
def CreateCustomerCommand.serialize (c : CreateCustomerCommand) : SerializedDict :=
  [("type", Value.str CommandTypes.CREATE_CUSTOMER),
   ("customer_id", c.customer_id),
   ("customer_data", c.customer_data)]

/-- `ProvisionResourcesCommand.serialize`. -/
def ProvisionResourcesCommand.serialize (c : ProvisionResourcesCommand) : SerializedDict :=
  [("type", Value.str CommandTypes.PROVISION_RESOURCES),
   ("resource_id", c.resource_id),
   ("resource_config", c.resource_config)]

/-- `Command.serialize`, dispatched on the variant. -/
def Command.serialize : Command → SerializedDict
  | .createCustomer c => c.serialize
  | .provisionResources c => c.serialize

/-- `CreateCustomerCommand.deserialize`: reads `data["customer_id"]` then
`data["customer_data"]`; a missing key raises `KeyError` (`malformed`). -/
def CreateCustomerCommand.deserialize (data : SerializedDict) :
    Except CommandError Command :=
  match dictGet data "customer_id" with
  | none => .error (CommandError.malformed "customer_id")
  | some cid =>
    match dictGet data "customer_data" with
    | none => .error (CommandError.malformed "customer_data")
    | some cdata => .ok (Command.createCustomer ⟨cid, cdata⟩)

/-- `ProvisionResourcesCommand.deserialize`: reads `data["resource_id"]` then
`data["resource_config"]`. -/
def ProvisionResourcesCommand.deserialize (data : SerializedDict) :
    Except CommandError Command :=
  match dictGet data "resource_id" with
  | none => .error (CommandError.malformed "resource_id")
  | some rid =>
    match dictGet data "resource_config" with
    | none => .error (CommandError.malformed "resource_config")
    | some rconf => .ok (Command.provisionResources ⟨rid, rconf⟩)

/-- The variant's own `deserialize`, selected by the variant of a given
command (used to state the round-trip law "via the variant's own
deserialize"). -/
def Command.ownDeserialize : Command → SerializedDict → Except CommandError Command
  | .createCustomer _, d => CreateCustomerCommand.deserialize d
  | .provisionResources _, d => ProvisionResourcesCommand.deserialize d

/-- `CommandFactory.command_map.get`: the deserializing constructor registered
for a kind tag, if any.  The Python map is keyed by the `str` enum members,
which compare equal to their string values, so a lookup succeeds exactly when
the tag is the string value of a registered `CommandTypes` member. -/
def CommandFactory.command_map (t : Value) :
    Option (SerializedDict → Except CommandError Command) :=
  match t with
  | Value.str s =>
    if s = CommandTypes.CREATE_CUSTOMER then some CreateCustomerCommand.deserialize
    else if s = CommandTypes.PROVISION_RESOURCES then some ProvisionResourcesCommand.deserialize
    else none
  | _ => none

/-- `CommandFactory.create_command`: looks up `data.get("type")` in the map
and raises `ValueError` (`unknownKind`) when no constructor is registered. -/
def CommandFactory.create_command (data : SerializedDict) :
    Except CommandError Command :=
  let command_type := dictGet data "type"
  match command_type.bind CommandFactory.command_map with
  | none => .error (CommandError.unknownKind command_type)
  | some deser => deser data

/-- Outcome of one `execute_next` call, following the spec's outcome
vocabulary: NoOp on an empty queue, Executed/Compensated carrying the
serialized command that was processed. -/
inductive Outcome where
  | noop
  | executed (sc : SerializedDict)
  | compensated (sc : SerializedDict)

/-- Observable result of one `execute_next` call: the outcome (or the
uncaught `CommandError` propagated to the caller), the queue afterwards, and
the lists of commands that were constructed by the factory, had `execute`
invoked, and had `undo` invoked during the call. -/
structure ExecResult where
  outcome : Except CommandError Outcome
  queue : List SerializedDict
  constructed : List Command
  execCalls : List Command
  undos : List Command

/-- `CommandScheduler.schedule`: serializes the command and appends it to the
tail of the queue. -/
def CommandScheduler.schedule (queue : List SerializedDict) (command : Command) :
    List SerializedDict :=
  queue ++ [command.serialize]

/-- `CommandScheduler.execute_next`.  `fail` is the result of the
`simulate_failure` random draw inside `execute` for this call (`true` means
`execute` raises).  On an empty queue it returns at once; otherwise it pops
the head, reconstructs the command (a `CommandError` here propagates to the
caller: the `try` block only wraps `execute`), runs `execute`, and on failure
catches the exception and runs `undo` on the reconstructed command. -/
def CommandScheduler.execute_next (fail : Bool) :
    List SerializedDict → ExecResult
  | [] => ⟨.ok .noop, [], [], [], []⟩
  | serialized_command :: rest =>
    match CommandFactory.create_command serialized_command with
    | .error e => ⟨.error e, rest, [], [], []⟩
    | .ok command =>
      if fail then
        ⟨.ok (.compensated serialized_command), rest, [command], [command], [command]⟩
      else
        ⟨.ok (.executed serialized_command), rest, [command], [command], []⟩

/-- Scheduling a list of commands in order, left to right. -/
def CommandScheduler.scheduleAll (queue : List SerializedDict) (cs : List Command) :
    List SerializedDict :=
  cs.foldl CommandScheduler.schedule queue

/-- Repeatedly calling `execute_next`, one call per entry of `fails` (the
successive `simulate_failure` draws); returns the outcomes in call order and
the final queue. -/
def CommandScheduler.runAll :
    List Bool → List SerializedDict → List (Except CommandError Outcome) × List SerializedDict
  | [], q => ([], q)
  | f :: fs, q =>
    let r := CommandScheduler.execute_next f q
    let p := CommandScheduler.runAll fs r.queue
    (r.outcome :: p.1, p.2)

/-- `PipelineMemento._secure_credentials`: masks each credential value by
prefixing the string "secured_" (a placeholder, not encryption). -/
def PipelineMemento.secure_credentials (credentials : List (String × String)) :
    List (String × String) :=
  credentials.map (fun kv => (kv.1, "secured_" ++ kv.2))

/-- State captured by a `PipelineMemento` (deep copies are identities in this
pure model; credentials are stored masked by `secure_credentials`). -/
structure PipelineMemento where
  offsets : List (String × Value)
  schema_versions : List (String × Value)
  credentials : List (String × String)

/-- `PipelineMemento.__init__`: deep-copies offsets and schema versions and
stores the credentials masked. -/
def PipelineMemento.make (offsets schema_versions : List (String × Value))
    (credentials : List (String × String)) : PipelineMemento :=
  ⟨offsets, schema_versions, PipelineMemento.secure_credentials credentials⟩

/-- Mutable state of a `PipelineOrchestrator`. -/
structure PipelineOrchestrator where
  current_offsets : List (String × Value)
  current_schema_versions : List (String × Value)
  current_credentials : List (String × String)

/-- `PipelineOrchestrator.create_memento`. -/
def PipelineOrchestrator.create_memento (o : PipelineOrchestrator) : PipelineMemento :=
  PipelineMemento.make o.current_offsets o.current_schema_versions o.current_credentials

/-- `PipelineOrchestrator.restore_from_memento`: overwrites the three state
fields with the memento's stored values (the property accessors return deep
copies, identities here). -/
def PipelineOrchestrator.restore_from_memento (o : PipelineOrchestrator)
    (memento : PipelineMemento) : PipelineOrchestrator :=
  { o with
    current_offsets := memento.offsets
    current_schema_versions := memento.schema_versions
    current_credentials := memento.credentials }

/-- An `EventSubject` holds a Python `set` of observers.  Observers are
identified by their object identity, modelled as `Nat` ids; the set is a
duplicate-free list (membership-guarded insertion mirrors `set.add`,
iteration order is immaterial to the counting properties proved below). -/
structure EventSubject where
  observers : List Nat

/-- `EventSubject.register_observer`: `set.add`, a no-op when the observer is
already present. -/
def EventSubject.register_observer (s : EventSubject) (o : Nat) : EventSubject :=
  if o ∈ s.observers then s else ⟨s.observers ++ [o]⟩

/-- `EventSubject.unregister_observer`: `set.discard`, removes the observer
if present and does nothing (raising no error) otherwise. -/
def EventSubject.unregister_observer (s : EventSubject) (o : Nat) : EventSubject :=
  ⟨s.observers.filter (fun x => x ≠ o)⟩

/-- One `observer.update(event, data)` call delivered during a notification. -/
structure UpdateCall where
  observer : Nat
  event : String
  data : List (String × Value)

/-- `EventSubject.notify_observers`: calls `update(event, data)` once per
registered observer; the returned list is the delivery log. -/
def EventSubject.notify_observers (s : EventSubject) (event : String)
    (data : List (String × Value)) : List UpdateCall :=
  s.observers.map (fun o => ⟨o, event, data⟩)

/-- Registering the same observer `n` times in a row. -/
def EventSubject.registerN (s : EventSubject) (o : Nat) : Nat → EventSubject
  | 0 => s
  | n + 1 => (s.register_observer o).registerN o n

/-! ## Helper lemmas -/

/-- Reconstructing a serialized command through the factory recovers it. -/
theorem create_command_serialize (c : Command) :
    CommandFactory.create_command c.serialize = Except.ok c := by
  cases c <;> rfl

/-- `scheduleAll` appends the serializations in order. -/
theorem scheduleAll_eq (cs : List Command) (q : List SerializedDict) :
    CommandScheduler.scheduleAll q cs = q ++ cs.map Command.serialize := by
  induction cs generalizing q with
  | nil => simp [CommandScheduler.scheduleAll]
  | cons c cs ih =>
    simp only [CommandScheduler.scheduleAll, List.foldl_cons, List.map_cons] at *
    rw [ih]
    simp [CommandScheduler.schedule]

/-- Draining a queue of serialized commands produces the outcomes in queue
order, each carrying the corresponding serialized command. -/
theorem runAll_map (fails : List Bool) (cs : List Command) (h : fails.length = cs.length) :
    (CommandScheduler.runAll fails (cs.map Command.serialize)).1 =
      List.zipWith
        (fun f c =>
          Except.ok (if f then Outcome.compensated c.serialize else Outcome.executed c.serialize))
        fails cs := by
  induction fails generalizing cs with
  | nil => simp [CommandScheduler.runAll]
  | cons f fs ih =>
    cases cs with
    | nil => simp at h
    | cons c cs =>
      have hc := create_command_serialize c
      simp only [List.length_cons, Nat.succ.injEq] at h
      simp only [List.map_cons, CommandScheduler.runAll, CommandScheduler.execute_next, hc]
      cases f <;> simp [ih cs h]

/-! ## Claim theorems -/

/-- C1: for every Command (either variant, any stored id and data values),
deserializing the result of `serialize` — via the variant's own `deserialize`
or via `CommandFactory.create_command` — yields a command of the same kind
with identical field values. -/
theorem command_serialize_roundtrip (c : Command) :
    CommandFactory.create_command c.serialize = Except.ok c ∧
    c.ownDeserialize c.serialize = Except.ok c := by
  cases c <;> exact ⟨rfl, rfl⟩

/-- C2: when the head-of-queue command reconstructs successfully and its
`execute` fails, `execute_next` catches the error (the outcome is an `ok`
Compensated carrying the serialized command, not a propagated error) and
invokes `undo` exactly once, on the reconstructed command. -/
theorem execute_next_failure_compensates (sc : SerializedDict)
    (rest : List SerializedDict) (cmd : Command)
    (h : CommandFactory.create_command sc = Except.ok cmd) :
    (CommandScheduler.execute_next true (sc :: rest)).outcome
        = Except.ok (Outcome.compensated sc) ∧
    (CommandScheduler.execute_next true (sc :: rest)).undos = [cmd] := by
  simp [CommandScheduler.execute_next, h]

/-- C2 witness: a concrete failing `CreateCustomerCommand` is compensated. -/
theorem execute_next_failure_compensates_witness :
    (CommandScheduler.execute_next true
        [(Command.createCustomer
            ⟨Value.str "fail123", Value.dict [("name", Value.str "Fail User")]⟩).serialize]).outcome
        = Except.ok (Outcome.compensated
            (Command.createCustomer
              ⟨Value.str "fail123", Value.dict [("name", Value.str "Fail User")]⟩).serialize) ∧
    (CommandScheduler.execute_next true
        [(Command.createCustomer
            ⟨Value.str "fail123", Value.dict [("name", Value.str "Fail User")]⟩).serialize]).undos
        = [Command.createCustomer ⟨Value.str "fail123", Value.dict [("name", Value.str "Fail User")]⟩] :=
  execute_next_failure_compensates _ [] _ rfl

/-- C3: when the head-of-queue command reconstructs successfully and its
`execute` succeeds, `execute_next` returns an Executed outcome and never
invokes `undo`. -/
theorem execute_next_success_executes (sc : SerializedDict)
    (rest : List SerializedDict) (cmd : Command)
    (h : CommandFactory.create_command sc = Except.ok cmd) :
    (CommandScheduler.execute_next false (sc :: rest)).outcome
        = Except.ok (Outcome.executed sc) ∧
    (CommandScheduler.execute_next false (sc :: rest)).undos = [] := by
  simp [CommandScheduler.execute_next, h]

/-- C3 witness: a concrete succeeding `ProvisionResourcesCommand` is executed
with no undo. -/
theorem execute_next_success_executes_witness :
    (CommandScheduler.execute_next false
        [(Command.provisionResources
            ⟨Value.str "res-456", Value.dict [("type", Value.str "vm")]⟩).serialize]).outcome
        = Except.ok (Outcome.executed
            (Command.provisionResources
              ⟨Value.str "res-456", Value.dict [("type", Value.str "vm")]⟩).serialize) ∧
    (CommandScheduler.execute_next false
        [(Command.provisionResources
            ⟨Value.str "res-456", Value.dict [("type", Value.str "vm")]⟩).serialize]).undos = [] :=
  execute_next_success_executes _ [] _ rfl

/-- C4: for every scheduler state (the empty initial queue included),
`schedule` grows the queue by exactly one; on a non-empty queue,
`execute_next` leaves exactly the tail (one shorter), whatever the
`simulate_failure` draw was and whether reconstruction succeeded — the
processed head is never re-enqueued. -/
theorem schedule_and_execute_next_queue_length (q : List SerializedDict)
    (c : Command) (f : Bool) :
    (CommandScheduler.schedule q c).length = q.length + 1 ∧
    (q ≠ [] →
      (CommandScheduler.execute_next f q).queue = q.tail ∧
      (CommandScheduler.execute_next f q).queue.length = q.length - 1) := by
  refine ⟨by simp [CommandScheduler.schedule], fun h => ?_⟩
  have hq : (CommandScheduler.execute_next f q).queue = q.tail := by
    cases q with
    | nil => exact absurd rfl h
    | cons sc rest =>
      cases hc : CommandFactory.create_command sc with
      | error e => simp [CommandScheduler.execute_next, hc]
      | ok cmd => cases f <;> simp [CommandScheduler.execute_next, hc]
  exact ⟨hq, by rw [hq, List.length_tail]⟩

/-- C4 witness: scheduling onto the empty initial queue gives length one, and
the tail laws hold at a concrete one-element queue. -/
theorem schedule_and_execute_next_queue_length_witness :
    (CommandScheduler.schedule []
        (Command.provisionResources ⟨Value.str "res-456", Value.dict []⟩)).length
      = ([] : List SerializedDict).length + 1 ∧
    (CommandScheduler.execute_next true
        [(Command.createCustomer ⟨Value.str "123", Value.dict []⟩).serialize]).queue
      = [(Command.createCustomer ⟨Value.str "123", Value.dict []⟩).serialize].tail ∧
    (CommandScheduler.execute_next true
        [(Command.createCustomer ⟨Value.str "123", Value.dict []⟩).serialize]).queue.length
      = [(Command.createCustomer ⟨Value.str "123", Value.dict []⟩).serialize].length - 1 :=
  ⟨(schedule_and_execute_next_queue_length []
      (Command.provisionResources ⟨Value.str "res-456", Value.dict []⟩) true).1,
   ((schedule_and_execute_next_queue_length
      [(Command.createCustomer ⟨Value.str "123", Value.dict []⟩).serialize]
      (Command.provisionResources ⟨Value.str "res-456", Value.dict []⟩) true).2 (by simp)).1,
   ((schedule_and_execute_next_queue_length
      [(Command.createCustomer ⟨Value.str "123", Value.dict []⟩).serialize]
      (Command.provisionResources ⟨Value.str "res-456", Value.dict []⟩) true).2 (by simp)).2⟩

/-- C5: `execute_next` on an empty queue is a no-op: an `ok` NoOp outcome (no
error), an unchanged empty queue, and no command constructed, executed or
undone. -/
theorem execute_next_empty_queue_noop (f : Bool) :
    CommandScheduler.execute_next f [] =
      ⟨Except.ok Outcome.noop, [], [], [], []⟩ := rfl

/-- C6: the queue is FIFO.  Scheduling a list of commands (in order, onto an
empty queue) and then repeatedly calling `execute_next` — one call per
`simulate_failure` draw in `fails` — produces outcomes that carry the
serialized commands in exactly insertion order. -/
theorem scheduler_fifo_order (cs : List Command) (fails : List Bool)
    (h : fails.length = cs.length) :
    (CommandScheduler.runAll fails (CommandScheduler.scheduleAll [] cs)).1 =
      List.zipWith
        (fun f c =>
          Except.ok (if f then Outcome.compensated c.serialize else Outcome.executed c.serialize))
        fails cs := by
  rw [scheduleAll_eq, List.nil_append]
  exact runAll_map fails cs h

/-- C6 witness: two scheduled commands are processed in insertion order. -/
theorem scheduler_fifo_order_witness :
    (CommandScheduler.runAll [false, true]
        (CommandScheduler.scheduleAll []
          [Command.createCustomer ⟨Value.str "123", Value.dict [("name", Value.str "John Doe")]⟩,
           Command.provisionResources ⟨Value.str "res-456", Value.dict [("type", Value.str "vm")]⟩])).1 =
      List.zipWith
        (fun f c =>
          Except.ok (if f then Outcome.compensated c.serialize else Outcome.executed c.serialize))
        [false, true]
        [Command.createCustomer ⟨Value.str "123", Value.dict [("name", Value.str "John Doe")]⟩,
         Command.provisionResources ⟨Value.str "res-456", Value.dict [("type", Value.str "vm")]⟩] :=
  scheduler_fifo_order _ _ rfl

/-- C7: when the popped serialized command's kind tag has no registered
constructor, `create_command` fails with the unknown-kind error (the
`ValueError` of the source), no command is constructed and no `execute` or
`undo` runs, and the error propagates out of `execute_next` with the queue
left exactly as the pop left it (the tail: the popped item is not restored
and nothing else is changed). -/
theorem create_command_unknown_kind (d : SerializedDict)
    (rest : List SerializedDict) (f : Bool)
    (h : (dictGet d "type").bind CommandFactory.command_map = none) :
    CommandFactory.create_command d
        = Except.error (CommandError.unknownKind (dictGet d "type")) ∧
    CommandScheduler.execute_next f (d :: rest) =
      ⟨Except.error (CommandError.unknownKind (dictGet d "type")), rest, [], [], []⟩ := by
  have h1 : CommandFactory.create_command d
      = Except.error (CommandError.unknownKind (dictGet d "type")) := by
    simp [CommandFactory.create_command, h]
  exact ⟨h1, by simp [CommandScheduler.execute_next, h1]⟩

/-- C7 witness: the factory rejects kind "unknown_type" and `execute_next`
propagates it. -/
theorem create_command_unknown_kind_witness :
    CommandFactory.create_command [("type", Value.str "unknown_type")]
        = Except.error (CommandError.unknownKind
            (dictGet [("type", Value.str "unknown_type")] "type")) ∧
    CommandScheduler.execute_next false ([("type", Value.str "unknown_type")] :: []) =
      ⟨Except.error (CommandError.unknownKind
          (dictGet [("type", Value.str "unknown_type")] "type")), [], [], [], []⟩ := by
  have h := create_command_unknown_kind [("type", Value.str "unknown_type")] [] false rfl
  exact ⟨h.1, h.2⟩

/-- C8: a serialized command with a registered kind tag but a missing
required field fails deserialization with the malformed-command error (the
`KeyError` of the source), so the command never runs: inside `execute_next`
no `execute` and no `undo` is invoked. -/
theorem deserialize_missing_field_malformed (d : SerializedDict)
    (rest : List SerializedDict) (f : Bool)
    (h : (dictGet d "type" = some (Value.str CommandTypes.CREATE_CUSTOMER) ∧
            (dictGet d "customer_id" = none ∨ dictGet d "customer_data" = none)) ∨
         (dictGet d "type" = some (Value.str CommandTypes.PROVISION_RESOURCES) ∧
            (dictGet d "resource_id" = none ∨ dictGet d "resource_config" = none))) :
    (∃ k, CommandFactory.create_command d = Except.error (CommandError.malformed k)) ∧
    (CommandScheduler.execute_next f (d :: rest)).execCalls = [] ∧
    (CommandScheduler.execute_next f (d :: rest)).undos = [] := by
  have herr : ∃ k, CommandFactory.create_command d
      = Except.error (CommandError.malformed k) := by
    rcases h with ⟨ht, hm⟩ | ⟨ht, hm⟩
    · have hd : CommandFactory.create_command d = CreateCustomerCommand.deserialize d := by
        simp [CommandFactory.create_command, ht, CommandFactory.command_map]
      rw [hd]
      cases hcid : dictGet d "customer_id" with
      | none => exact ⟨"customer_id", by simp [CreateCustomerCommand.deserialize, hcid]⟩
      | some cid =>
        rcases hm with hm | hm
        · rw [hcid] at hm; cases hm
        · exact ⟨"customer_data", by simp [CreateCustomerCommand.deserialize, hcid, hm]⟩
    · have hd : CommandFactory.create_command d = ProvisionResourcesCommand.deserialize d := by
        simp [CommandFactory.create_command, ht, CommandFactory.command_map,
          CommandTypes.PROVISION_RESOURCES, CommandTypes.CREATE_CUSTOMER]
      rw [hd]
      cases hrid : dictGet d "resource_id" with
      | none => exact ⟨"resource_id", by simp [ProvisionResourcesCommand.deserialize, hrid]⟩
      | some rid =>
        rcases hm with hm | hm
        · rw [hrid] at hm; cases hm
        · exact ⟨"resource_config", by simp [ProvisionResourcesCommand.deserialize, hrid, hm]⟩
  obtain ⟨k, hk⟩ := herr
  exact ⟨⟨k, hk⟩, by simp [CommandScheduler.execute_next, hk],
    by simp [CommandScheduler.execute_next, hk]⟩

/-- C8 witness: a create_customer record with no customer_id is rejected as
malformed and neither executed nor undone. -/
theorem deserialize_missing_field_malformed_witness :
    (∃ k, CommandFactory.create_command
        [("type", Value.str CommandTypes.CREATE_CUSTOMER)]
        = Except.error (CommandError.malformed k)) ∧
    (CommandScheduler.execute_next false
        ([("type", Value.str CommandTypes.CREATE_CUSTOMER)] :: [])).execCalls = [] ∧
    (CommandScheduler.execute_next false
        ([("type", Value.str CommandTypes.CREATE_CUSTOMER)] :: [])).undos = [] :=
  deserialize_missing_field_malformed _ [] false (Or.inl ⟨rfl, Or.inl rfl⟩)

/-- C9: credential masking in the memento is plain string prefixing, not
encryption: the memento stores, for each credential key, exactly
"secured_" prepended to the original value; after `create_memento` followed
by `restore_from_memento`, offsets and schema versions are restored to
exactly their captured values, while each non-empty original credential
value differs from its restored (masked) value. -/
theorem memento_masking_and_restore (o o2 : PipelineOrchestrator) :
    o.create_memento.credentials =
      o.current_credentials.map (fun kv => (kv.1, "secured_" ++ kv.2)) ∧
    (o2.restore_from_memento o.create_memento).current_offsets = o.current_offsets ∧
    (o2.restore_from_memento o.create_memento).current_schema_versions =
      o.current_schema_versions ∧
    (o2.restore_from_memento o.create_memento).current_credentials =
      o.current_credentials.map (fun kv => (kv.1, "secured_" ++ kv.2)) ∧
    (∀ k v : String, (k, v) ∈ o.current_credentials → v ≠ "" →
      (k, "secured_" ++ v) ∈
        (o2.restore_from_memento o.create_memento).current_credentials ∧
      "secured_" ++ v ≠ v) := by
  refine ⟨rfl, rfl, rfl, rfl, fun k v hmem _ => ⟨?_, ?_⟩⟩
  · exact List.mem_map.mpr ⟨(k, v), hmem, rfl⟩
  · intro hcontr
    have hlen := congrArg String.length hcontr
    rw [String.length_append] at hlen
    have h8 : ("secured_" : String).length = 8 := rfl
    rw [h8] at hlen
    omega

/-- C9 witness: the masking and restore laws at the orchestrator state of the
source's own test. -/
theorem memento_masking_and_restore_witness :
    (PipelineOrchestrator.mk [("sourceA", Value.int 50)] [("sourceA", Value.str "v2.0")]
        [("api_key", "key123")]).create_memento.credentials =
      [("api_key", "key123")].map (fun kv => (kv.1, "secured_" ++ kv.2)) ∧
    ((PipelineOrchestrator.mk [] [] []).restore_from_memento
        (PipelineOrchestrator.mk [("sourceA", Value.int 50)] [("sourceA", Value.str "v2.0")]
          [("api_key", "key123")]).create_memento).current_offsets
      = [("sourceA", Value.int 50)] ∧
    ((PipelineOrchestrator.mk [] [] []).restore_from_memento
        (PipelineOrchestrator.mk [("sourceA", Value.int 50)] [("sourceA", Value.str "v2.0")]
          [("api_key", "key123")]).create_memento).current_schema_versions
      = [("sourceA", Value.str "v2.0")] ∧
    ((PipelineOrchestrator.mk [] [] []).restore_from_memento
        (PipelineOrchestrator.mk [("sourceA", Value.int 50)] [("sourceA", Value.str "v2.0")]
          [("api_key", "key123")]).create_memento).current_credentials
      = [("api_key", "key123")].map (fun kv => (kv.1, "secured_" ++ kv.2)) ∧
    ("api_key", "secured_" ++ "key123") ∈
      ((PipelineOrchestrator.mk [] [] []).restore_from_memento
        (PipelineOrchestrator.mk [("sourceA", Value.int 50)] [("sourceA", Value.str "v2.0")]
          [("api_key", "key123")]).create_memento).current_credentials ∧
    "secured_" ++ "key123" ≠ "key123" :=
  have h := memento_masking_and_restore
    (PipelineOrchestrator.mk [("sourceA", Value.int 50)] [("sourceA", Value.str "v2.0")]
      [("api_key", "key123")])
    (PipelineOrchestrator.mk [] [] [])
  ⟨h.1, h.2.1, h.2.2.1, h.2.2.2.1,
   (h.2.2.2.2 "api_key" "key123" (by simp) (by simp)).1,
   (h.2.2.2.2 "api_key" "key123" (by simp) (by simp)).2⟩

/-- Iterated registration of an already-registered observer changes nothing. -/
theorem registerN_of_mem (s : EventSubject) (o : Nat) (n : Nat) (h : o ∈ s.observers) :
    s.registerN o n = s := by
  induction n generalizing s with
  | zero => rfl
  | succ n ih =>
    have hs : s.register_observer o = s := by
      simp [EventSubject.register_observer, h]
    simp only [EventSubject.registerN, hs]
    exact ih s h

/-- Registering a fresh observer one or more times adds it exactly once. -/
theorem registerN_observers (s : EventSubject) (o : Nat) (n : Nat)
    (h : o ∉ s.observers) (hn : 1 ≤ n) :
    (s.registerN o n).observers = s.observers ++ [o] := by
  cases n with
  | zero => simp at hn
  | succ n =>
    have h1 : s.register_observer o = ⟨s.observers ++ [o]⟩ := by
      simp [EventSubject.register_observer, h]
    simp only [EventSubject.registerN, h1]
    rw [registerN_of_mem ⟨s.observers ++ [o]⟩ o n (by simp)]

/-- Deliveries to observer `o` in one notification are counted by the
multiplicity of `o` in the registered set. -/
theorem notify_countP (s : EventSubject) (e : String) (d : List (String × Value)) (o : Nat) :
    (s.notify_observers e d).countP (fun u => u.observer == o) = s.observers.count o := by
  simp only [EventSubject.notify_observers, List.countP_map]
  rfl

/-- C10: the observer registry has set semantics: registering an observer
any number (≥ 1) of times and notifying delivers exactly one `update` call to
it per notification; after `unregister_observer` it receives none; and
unregistering a never-registered observer is a no-op that leaves the subject
unchanged (and raises nothing). -/
theorem observer_set_semantics (s : EventSubject) (o : Nat) (n : Nat) (e : String)
    (d : List (String × Value)) (h : o ∉ s.observers) (hn : 1 ≤ n) :
    ((s.registerN o n).notify_observers e d).countP (fun u => u.observer == o) = 1 ∧
    (((s.registerN o n).unregister_observer o).notify_observers e d).countP
        (fun u => u.observer == o) = 0 ∧
    s.unregister_observer o = s := by
  have hobs := registerN_observers s o n h hn
  refine ⟨?_, ?_, ?_⟩
  · rw [notify_countP, hobs]
    simp [List.count_append, List.count_eq_zero.mpr h]
  · rw [notify_countP]
    apply List.count_eq_zero.mpr
    intro hmemf
    simp only [EventSubject.unregister_observer, List.mem_filter] at hmemf
    simp at hmemf
  · cases s with
    | mk obs =>
      simp only [EventSubject.unregister_observer, EventSubject.mk.injEq]
      refine List.filter_eq_self.mpr (fun x hx => ?_)
      simp only [ne_eq, Bool.not_eq_true', decide_not, Bool.not_eq_false', decide_eq_true_eq]
      exact decide_eq_false (fun hxo => h (hxo ▸ hx))

/-- C10 witness: the set-semantics laws at a concrete subject with one other
registered observer, registering observer 3 twice. -/
theorem observer_set_semantics_witness :
    (((EventSubject.mk [7]).registerN 3 2).notify_observers "test_event"
        [("key", Value.str "value")]).countP (fun u => u.observer == 3) = 1 ∧
    ((((EventSubject.mk [7]).registerN 3 2).unregister_observer 3).notify_observers
        "test_event" [("key", Value.str "value")]).countP (fun u => u.observer == 3) = 0 ∧
    (EventSubject.mk [7]).unregister_observer 3 = EventSubject.mk [7] :=
  observer_set_semantics (EventSubject.mk [7]) 3 2 "test_event"
    [("key", Value.str "value")] (by decide) (by decide)
